import Mathlib

/-!
Verification of the ROCm native Linux package installation-test scripts
(`build_tools/packaging/linux/native_linux_packages_test_gpg.py` and
`build_tools/packaging/linux/package_full_test.py`).

The scripts are shell-out orchestrators; their decision logic (OS-profile
dispatch, repository source-line construction, URL construction, the
verification checklist, and the run state machine) is embedded below as pure
functions.  External commands are modelled by their documented CLI contract:
an exit code or a timeout; exceptions that the Python code catches are
modelled as explicit outcome constructors.
-/

set_option maxRecDepth 8192
set_option linter.unusedVariables false
set_option linter.unnecessarySeqFocus false

namespace RocmPkgTest

/-! ### Python string primitives

`str.startswith`, `str.lower`, the `in` substring test and `str.rstrip("/")`,
modelled on the character sequence of the string. -/

/-- Python `s.startswith(p)`: `p` is a prefix of the character sequence of `s`. -/
def pyStartsWith (s p : String) : Bool :=
  p.data.isPrefixOf s.data

/-- Python `s.lower()`: lowercase each character. -/
def pyLower (s : String) : String :=
  ⟨s.data.map Char.toLower⟩

/-- Python `sub in s` for strings: contiguous substring test. -/
def strContains (s sub : String) : Bool :=
  decide (sub.data <:+: s.data)

/-- Python `s.rstrip("/")`: drop all trailing `/` characters. -/
def rstrip_slashes (s : String) : String :=
  ⟨(s.data.reverse.dropWhile (fun c => c == '/')).reverse⟩

/-! ### Helper lemmas about the string primitives -/

theorem isPrefixOf_head?_eq {l₁ l₂ xs : List Char}
    (h₁ : l₁.isPrefixOf xs = true) (h₂ : l₂.isPrefixOf xs = true)
    (n₁ : l₁ ≠ []) (n₂ : l₂ ≠ []) : l₁.head? = l₂.head? := by
  match l₁, l₂, xs with
  | [], _, _ => exact absurd rfl n₁
  | _ :: _, [], _ => exact absurd rfl n₂
  | _ :: _, _ :: _, [] => simp [List.isPrefixOf] at h₁
  | a :: t₁, b :: t₂, x :: xs =>
    simp only [List.isPrefixOf, Bool.and_eq_true, beq_iff_eq] at h₁ h₂
    simp [h₁.1, h₂.1]

/-- Two prefix tests with different first characters cannot both succeed. -/
theorem pyStartsWith_false_of_ne {s p q : String}
    (hne : p.data.head? ≠ q.data.head?) (hp : p.data ≠ []) (hq : q.data ≠ [])
    (h : pyStartsWith s p = true) : pyStartsWith s q = false := by
  cases hc : pyStartsWith s q with
  | false => rfl
  | true =>
    unfold pyStartsWith at h hc
    exact absurd (isPrefixOf_head?_eq h hc hp hq) hne

theorem strContains_append_left {s sub : String} (t : String)
    (h : strContains s sub = true) : strContains (s ++ t) sub = true := by
  simp only [strContains, decide_eq_true_eq, String.data_append] at h ⊢
  obtain ⟨u, v, huv⟩ := h
  exact ⟨u, v ++ t.data, by rw [← huv]; simp⟩

theorem strContains_append_right {t sub : String} (s : String)
    (h : strContains t sub = true) : strContains (s ++ t) sub = true := by
  simp only [strContains, decide_eq_true_eq, String.data_append] at h ⊢
  obtain ⟨u, v, huv⟩ := h
  exact ⟨s.data ++ u, v, by rw [← huv]; simp⟩

/-! ### Package-family dispatch

`NativeLinuxPackagesTester._derive_package_type` and
`NativeLinuxPackagesTester._is_sles`
(native_linux_packages_test_gpg.py, lines 111-140). -/

/-- The `ValueError` message raised for an unsupported OS profile. -/
def derive_error_msg (osProfile : String) : String :=
  "Unable to derive package type from OS profile: " ++ osProfile ++
    ". Supported profiles: ubuntu*, debian*, rhel*, sles*, almalinux*, centos*, azl*"

/-- `_derive_package_type`: case-insensitive prefix dispatch to `deb`/`rpm`,
raising (modelled as `Except.error`) for an unsupported profile. -/
def derive_package_type (osProfile : String) : Except String String :=
  let lp := pyLower osProfile
  if pyStartsWith lp "ubuntu" || pyStartsWith lp "debian" then
    Except.ok "deb"
  else if pyStartsWith lp "rhel" || pyStartsWith lp "sles" ||
      pyStartsWith lp "almalinux" || pyStartsWith lp "centos" ||
      pyStartsWith lp "azl" then
    Except.ok "rpm"
  else
    Except.error (derive_error_msg osProfile)

/-- `_is_sles`: the OS profile selects the zypper (SLES) toolchain. -/
def is_sles (osProfile : String) : Bool :=
  pyStartsWith (pyLower osProfile) "sles"

/-- The package family of the specification: the code represents it as the
pair of `derive_package_type` and the `is_sles` predicate. -/
inductive PackageFamily where
  | DEB
  | RPM_DNF
  | RPM_ZYPPER
  deriving DecidableEq, Repr

/-- Family resolution as realised by the code: `derive_package_type` picks
`deb` vs `rpm`, and within `rpm` the `is_sles` predicate selects zypper. -/
def packageFamily (osProfile : String) : Except String PackageFamily :=
  (derive_package_type osProfile).map fun t =>
    if t == "deb" then PackageFamily.DEB
    else if is_sles osProfile then PackageFamily.RPM_ZYPPER
    else PackageFamily.RPM_DNF

/-- C1: the package-family resolver performs a case-insensitive prefix match:
`ubuntu*`/`debian*` resolve to DEB, `rhel*`/`almalinux*`/`centos*`/`azl*`
resolve to RPM_DNF, `sles*` resolves to RPM_ZYPPER, and any other profile
yields an error naming the supported prefixes (the resolver is a pure
function evaluated before any side-effecting step). -/
theorem package_family_resolution (s : String) :
    ((pyStartsWith (pyLower s) "ubuntu" = true ∨
      pyStartsWith (pyLower s) "debian" = true) →
      packageFamily s = Except.ok PackageFamily.DEB)
  ∧ ((pyStartsWith (pyLower s) "rhel" = true ∨
      pyStartsWith (pyLower s) "almalinux" = true ∨
      pyStartsWith (pyLower s) "centos" = true ∨
      pyStartsWith (pyLower s) "azl" = true) →
      packageFamily s = Except.ok PackageFamily.RPM_DNF)
  ∧ (pyStartsWith (pyLower s) "sles" = true →
      packageFamily s = Except.ok PackageFamily.RPM_ZYPPER)
  ∧ ((pyStartsWith (pyLower s) "ubuntu" = false ∧
      pyStartsWith (pyLower s) "debian" = false ∧
      pyStartsWith (pyLower s) "rhel" = false ∧
      pyStartsWith (pyLower s) "sles" = false ∧
      pyStartsWith (pyLower s) "almalinux" = false ∧
      pyStartsWith (pyLower s) "centos" = false ∧
      pyStartsWith (pyLower s) "azl" = false) →
      packageFamily s = Except.error (derive_error_msg s) ∧
      strContains (derive_error_msg s)
        "ubuntu*, debian*, rhel*, sles*, almalinux*, centos*, azl*" = true) := by
  refine ⟨?_, ?_, ?_, ?_⟩
  · rintro (h | h) <;>
      simp [packageFamily, Except.map, derive_package_type, h]
  · rintro (h | h | h | h) <;>
    · have hu := pyStartsWith_false_of_ne (q := "ubuntu")
        (by decide) (by decide) (by decide) h
      have hd := pyStartsWith_false_of_ne (q := "debian")
        (by decide) (by decide) (by decide) h
      have hs := pyStartsWith_false_of_ne (q := "sles")
        (by decide) (by decide) (by decide) h
      simp [packageFamily, Except.map, derive_package_type, is_sles, h, hu, hd, hs]
  · intro h
    have hu := pyStartsWith_false_of_ne (q := "ubuntu")
      (by decide) (by decide) (by decide) h
    have hd := pyStartsWith_false_of_ne (q := "debian")
      (by decide) (by decide) (by decide) h
    simp [packageFamily, Except.map, derive_package_type, is_sles, h, hu, hd]
  · rintro ⟨h1, h2, h3, h4, h5, h6, h7⟩
    refine ⟨by simp [packageFamily, Except.map, derive_package_type, h1, h2, h3, h4, h5, h6, h7], ?_⟩
    exact strContains_append_right _ (by decide)

/-- C1 witness: concrete resolutions for each family and for an unsupported
profile, obtained from `package_family_resolution`. -/
theorem package_family_resolution_witness :
    packageFamily "Ubuntu2404" = Except.ok PackageFamily.DEB ∧
    packageFamily "RHEL8" = Except.ok PackageFamily.RPM_DNF ∧
    packageFamily "SLES16" = Except.ok PackageFamily.RPM_ZYPPER ∧
    packageFamily "windows11" = Except.error (derive_error_msg "windows11") :=
  ⟨(package_family_resolution "Ubuntu2404").1 (Or.inl (by decide)),
   (package_family_resolution "RHEL8").2.1 (Or.inl (by decide)),
   (package_family_resolution "SLES16").2.2.1 (by decide),
   ((package_family_resolution "windows11").2.2.2
     ⟨by decide, by decide, by decide, by decide, by decide, by decide, by decide⟩).1⟩

/-! ### The orchestrator state machine

`NativeLinuxPackagesTester.run` (native_linux_packages_test_gpg.py, lines
844-901) and `PackageFullTester.run` (package_full_test.py, lines 558-616)
have identical control flow: a `try` block running repository setup, then
package installation, then verification, returning
`install_success and verification_success`; any `False` short-circuits, and
the top-level `except` turns an uncaught exception into `False`.  `main`
then calls `sys.exit(0 if success else 1)`. -/

/-- Outcome of one orchestrator phase: the Python method returned a bool, or
raised an exception (caught by the top-level handler of `run`). -/
inductive StepOutcome where
  | ok (success : Bool)
  | raised
  deriving DecidableEq, Repr, Fintype

/-- The three phases of `run`, in order. -/
inductive Phase where
  | repoSetup
  | installPhase
  | verifyPhase
  deriving DecidableEq, Repr, Fintype

/-- The behaviour of the three phases for one run. -/
structure RunBehavior where
  setupOutcome : StepOutcome
  installOutcome : StepOutcome
  verifyOutcome : StepOutcome
  deriving DecidableEq, Repr, Fintype

/-- `run`: overall success together with the list of phases attempted. -/
def run (b : RunBehavior) : Bool × List Phase :=
  match b.setupOutcome with
  | StepOutcome.raised => (false, [Phase.repoSetup])
  | StepOutcome.ok false => (false, [Phase.repoSetup])
  | StepOutcome.ok true =>
    match b.installOutcome with
    | StepOutcome.raised => (false, [Phase.repoSetup, Phase.installPhase])
    | StepOutcome.ok false => (false, [Phase.repoSetup, Phase.installPhase])
    | StepOutcome.ok true =>
      match b.verifyOutcome with
      | StepOutcome.raised =>
        (false, [Phase.repoSetup, Phase.installPhase, Phase.verifyPhase])
      | StepOutcome.ok v =>
        (v, [Phase.repoSetup, Phase.installPhase, Phase.verifyPhase])

/-- `main`: `sys.exit(0 if success else 1)`. -/
def exit_code (b : RunBehavior) : Nat :=
  if (run b).1 then 0 else 1

/-- C2: if repository setup fails, installation and verification are never
attempted and the run fails; if installation fails, verification is never
attempted and the run fails; the exit code is 0 iff installation was
attempted and succeeded and verification was attempted and passed, and 1
otherwise; and a phase that raises yields failure instead of propagating. -/
theorem orchestrator_exit_code_spec : ∀ b : RunBehavior,
    (b.setupOutcome ≠ StepOutcome.ok true →
      Phase.installPhase ∉ (run b).2 ∧ Phase.verifyPhase ∉ (run b).2 ∧
      (run b).1 = false)
  ∧ (b.setupOutcome = StepOutcome.ok true →
      b.installOutcome ≠ StepOutcome.ok true →
      Phase.verifyPhase ∉ (run b).2 ∧ (run b).1 = false)
  ∧ (exit_code b = 0 ↔
      (Phase.installPhase ∈ (run b).2 ∧ b.installOutcome = StepOutcome.ok true ∧
       Phase.verifyPhase ∈ (run b).2 ∧ b.verifyOutcome = StepOutcome.ok true))
  ∧ (exit_code b = 0 ∨ exit_code b = 1)
  ∧ ((b.setupOutcome = StepOutcome.raised ∨
      b.installOutcome = StepOutcome.raised ∨
      b.verifyOutcome = StepOutcome.raised) → (run b).1 = false) := by
  decide

/-- C2 witness: a failed setup short-circuits to failure, and an all-green
run exits 0, obtained from `orchestrator_exit_code_spec`. -/
theorem orchestrator_exit_code_spec_witness :
    (run ⟨StepOutcome.ok false, StepOutcome.ok true, StepOutcome.ok true⟩).1 = false ∧
    exit_code ⟨StepOutcome.ok true, StepOutcome.ok true, StepOutcome.ok true⟩ = 0 :=
  ⟨((orchestrator_exit_code_spec
      ⟨StepOutcome.ok false, StepOutcome.ok true, StepOutcome.ok true⟩).1
      (by decide)).2.2,
   ((orchestrator_exit_code_spec
      ⟨StepOutcome.ok true, StepOutcome.ok true, StepOutcome.ok true⟩).2.2.1).mpr
      (by decide)⟩

/-! ### Installation verification

`NativeLinuxPackagesTester.verify_rocm_installation`
(native_linux_packages_test_gpg.py, lines 669-781) and
`PackageFullTester.verify_rocm_installation` (package_full_test.py, lines
332-444).  Both check the install-prefix directory, count which checklist
components exist, then run the best-effort package query, `rocminfo` probe
and `test_rdhc` steps, and finally return `found_count >= 2`.  The two
scripts differ only in the checklist (5 items vs 4 items). -/

/-- Outcome of a ran external command: exit code, or expired timeout. -/
inductive ProcOutcome where
  | exited (code : Int)
  | timedOut
  deriving DecidableEq, Repr

/-- Outcome of a `subprocess.run(..., check=True)` call as the Python
handlers distinguish it: success, `CalledProcessError`, `TimeoutExpired`, or
any other exception. -/
inductive ExecOutcome where
  | success
  | failed
  | timedOut
  | raised
  deriving DecidableEq, Repr

/-- The environment a verification run observes: which paths exist, and the
outcomes of the best-effort subprocess probes (which are logged only). -/
structure VerifyWorld where
  pathExists : String → Bool
  pkgQueryCode : Int
  rocminfoOutcome : ProcOutcome
  rdhcExecutable : Bool
  rdhcAllOutcome : ExecOutcome
  rdhcNoArgOutcome : ExecOutcome

/-- `VERIFY_KEY_COMPONENTS` (native_linux_packages_test_gpg.py, lines 83-89). -/
def VERIFY_KEY_COMPONENTS : List String :=
  ["bin/rocminfo", "bin/hipcc", "bin/clinfo", "include/hip/hip_runtime.h",
   "lib/libamdhip64.so"]

/-- `key_components` of package_full_test.py (lines 351-356). -/
def pft_key_components : List String :=
  ["bin/rocminfo", "bin/hipcc", "include/hip/hip_runtime.h",
   "lib/libamdhip64.so"]

/-- `VERIFY_MIN_COMPONENTS` (native_linux_packages_test_gpg.py, line 103);
package_full_test.py hard-codes the same threshold 2 at line 439. -/
def VERIFY_MIN_COMPONENTS : Nat := 2

/-- `pathlib` `install_path / component`. -/
def joinPath (base rel : String) : String :=
  base ++ "/" ++ rel

/-- `found_count`: how many checklist components exist under the prefix. -/
def found_count (fs : String → Bool) (installPath : String)
    (components : List String) : Nat :=
  (components.filter fun c => fs (joinPath installPath c)).length

/-- The verification sub-steps that run after the install-prefix check. -/
inductive VerifyStep where
  | componentCheck
  | packageQuery
  | rocminfoRun
  | rdhcTest
  deriving DecidableEq, Repr

/-- The sub-steps performed when the install prefix exists: the checklist
walk, the package query, the `rocminfo` probe (only when that binary
exists), and `test_rdhc`. -/
def verify_steps (w : VerifyWorld) (installPath : String) : List VerifyStep :=
  [VerifyStep.componentCheck, VerifyStep.packageQuery] ++
    (if w.pathExists (joinPath installPath "bin/rocminfo") then
      [VerifyStep.rocminfoRun] else []) ++
    [VerifyStep.rdhcTest]

/-- `verify_rocm_installation`, generic in the checklist: returns the
verdict and the sub-steps performed.  If the install prefix is missing it
returns failure at once, performing no sub-step; otherwise the verdict is
`found_count >= VERIFY_MIN_COMPONENTS` (the probes are warnings only). -/
def verify_rocm_installation (w : VerifyWorld) (installPath : String)
    (components : List String) : Bool × List VerifyStep :=
  if w.pathExists installPath then
    (decide (VERIFY_MIN_COMPONENTS ≤ found_count w.pathExists installPath components),
     verify_steps w installPath)
  else
    (false, [])

/-- The native script's verification (5-item checklist). -/
def native_verify (w : VerifyWorld) (installPath : String) : Bool × List VerifyStep :=
  verify_rocm_installation w installPath VERIFY_KEY_COMPONENTS

/-- package_full_test.py's verification (4-item checklist). -/
def pft_verify (w : VerifyWorld) (installPath : String) : Bool × List VerifyStep :=
  verify_rocm_installation w installPath pft_key_components

/-- A world in which exactly 2 of package_full_test.py's 4 checklist items
exist under `/opt/rocm`. -/
def twoOfFourWorld : VerifyWorld where
  pathExists := fun s =>
    ["/opt/rocm", "/opt/rocm/bin/rocminfo", "/opt/rocm/bin/hipcc"].contains s
  pkgQueryCode := 0
  rocminfoOutcome := ProcOutcome.exited 0
  rdhcExecutable := false
  rdhcAllOutcome := ExecOutcome.success
  rdhcNoArgOutcome := ExecOutcome.success

/-- A world in which exactly 1 of package_full_test.py's 4 checklist items
exists under `/opt/rocm`. -/
def oneOfFourWorld : VerifyWorld where
  pathExists := fun s => ["/opt/rocm", "/opt/rocm/bin/rocminfo"].contains s
  pkgQueryCode := 0
  rocminfoOutcome := ProcOutcome.exited 0
  rdhcExecutable := false
  rdhcAllOutcome := ExecOutcome.success
  rdhcNoArgOutcome := ExecOutcome.success

/-- C3: when the install prefix exists, the verification verdict is PASS iff
at least `VERIFY_MIN_COMPONENTS = 2` checklist components are found, for
both scripts' checklists; concretely, exactly 2 of the 4-item checklist
found yields PASS and 1 of 4 yields FAIL (the native script's checklist has
5 items, with the same threshold). -/
theorem verification_threshold_spec (w : VerifyWorld) (p : String)
    (h : w.pathExists p = true) :
    (((native_verify w p).1 = true ↔
        VERIFY_MIN_COMPONENTS ≤ found_count w.pathExists p VERIFY_KEY_COMPONENTS) ∧
     ((pft_verify w p).1 = true ↔
        VERIFY_MIN_COMPONENTS ≤ found_count w.pathExists p pft_key_components))
  ∧ found_count twoOfFourWorld.pathExists "/opt/rocm" pft_key_components = 2 ∧
    (pft_verify twoOfFourWorld "/opt/rocm").1 = true
  ∧ found_count oneOfFourWorld.pathExists "/opt/rocm" pft_key_components = 1 ∧
    (pft_verify oneOfFourWorld "/opt/rocm").1 = false := by
  refine ⟨⟨?_, ?_⟩, by decide, by decide, by decide, by decide⟩ <;>
    simp [native_verify, pft_verify, verify_rocm_installation, h]

/-- C3 witness: the generic threshold equivalence instantiated at the
2-of-4 world, obtained from `verification_threshold_spec`. -/
theorem verification_threshold_spec_witness :
    twoOfFourWorld.pathExists "/opt/rocm" = true ∧
    ((pft_verify twoOfFourWorld "/opt/rocm").1 = true ↔
      VERIFY_MIN_COMPONENTS ≤
        found_count twoOfFourWorld.pathExists "/opt/rocm" pft_key_components) :=
  ⟨by decide,
   (verification_threshold_spec twoOfFourWorld "/opt/rocm" (by decide)).1.2⟩

/-- C8: if the install prefix does not exist, verification in either script
returns failure immediately and performs none of the checklist, package
query, or diagnostic sub-steps (and, being a total function of the observed
world, raises nothing). -/
theorem missing_install_dir_aborts (w : VerifyWorld) (p : String)
    (h : w.pathExists p = false) :
    native_verify w p = (false, []) ∧ pft_verify w p = (false, []) := by
  simp [native_verify, pft_verify, verify_rocm_installation, h]

/-- A world with an empty filesystem. -/
def absentWorld : VerifyWorld where
  pathExists := fun _ => false
  pkgQueryCode := 0
  rocminfoOutcome := ProcOutcome.exited 0
  rdhcExecutable := false
  rdhcAllOutcome := ExecOutcome.success
  rdhcNoArgOutcome := ExecOutcome.success

/-- C8 witness: concrete short-circuit on a missing `/opt/rocm`, obtained
from `missing_install_dir_aborts`. -/
theorem missing_install_dir_aborts_witness :
    absentWorld.pathExists "/opt/rocm" = false ∧
    native_verify absentWorld "/opt/rocm" = (false, []) ∧
    pft_verify absentWorld "/opt/rocm" = (false, []) :=
  ⟨rfl, (missing_install_dir_aborts absentWorld "/opt/rocm" rfl).1,
    (missing_install_dir_aborts absentWorld "/opt/rocm" rfl).2⟩

/-! ### The rdhc helper-script probe

`NativeLinuxPackagesTester.test_rdhc` (native_linux_packages_test_gpg.py,
lines 783-842), `PackageFullTester.test_rdhc` (package_full_test.py, lines
446-507) and `PackageFullTester._try_rdhc_without_args` (lines 509-556).
Both run the script directly when it is executable and through the Python
interpreter otherwise, first with `--all` under a 30-second timeout.  Only
package_full_test.py retries without arguments after a failure or timeout;
the native script logs a warning and returns.  Each model returns the
result together with the argument lists of the commands actually run. -/

/-- `cmd`: the script itself when executable, else the interpreter plus the
script (`sys.executable` is the `pyExe` parameter). -/
def rdhc_base_cmd (executable : Bool) (pyExe script : String) : List String :=
  if executable then [script] else [pyExe, script]

/-- `test_rdhc` of the native script: one `--all` invocation; every non-success
outcome is a warning and there is no second invocation. -/
def native_test_rdhc (scriptExists executable : Bool) (allOutcome : ExecOutcome)
    (pyExe script : String) : Bool × List (List String) :=
  if scriptExists then
    let cmd := rdhc_base_cmd executable pyExe script
    match allOutcome with
    | ExecOutcome.success => (true, [cmd ++ ["--all"]])
    | ExecOutcome.timedOut => (false, [cmd ++ ["--all"]])
    | ExecOutcome.failed => (false, [cmd ++ ["--all"]])
    | ExecOutcome.raised => (false, [cmd ++ ["--all"]])
  else
    (false, [])

/-- `_try_rdhc_without_args` of package_full_test.py: success iff the
argument-less invocation succeeds. -/
def pft_try_rdhc_without_args (noArgOutcome : ExecOutcome) : Bool :=
  match noArgOutcome with
  | ExecOutcome.success => true
  | _ => false

/-- `test_rdhc` of package_full_test.py: the `--all` invocation, retried
without arguments on `CalledProcessError` or `TimeoutExpired`. -/
def pft_test_rdhc (scriptExists executable : Bool)
    (allOutcome noArgOutcome : ExecOutcome) (pyExe script : String) :
    Bool × List (List String) :=
  if scriptExists then
    let cmd := rdhc_base_cmd executable pyExe script
    match allOutcome with
    | ExecOutcome.success => (true, [cmd ++ ["--all"]])
    | ExecOutcome.timedOut =>
      (pft_try_rdhc_without_args noArgOutcome, [cmd ++ ["--all"], cmd])
    | ExecOutcome.failed =>
      (pft_try_rdhc_without_args noArgOutcome, [cmd ++ ["--all"], cmd])
    | ExecOutcome.raised => (false, [cmd ++ ["--all"]])
  else
    (false, [])

/-- C7 counterexample: in the native script, when the existing, executable
helper script's `--all` invocation fails, the claimed retry without
arguments never happens — the bare command is not among the invocations. -/
theorem rdhc_retry_counterexample :
    ¬ (["/opt/rocm/libexec/rocm-core/rdhc.py"] ∈
        (native_test_rdhc true true ExecOutcome.failed "python3"
          "/opt/rocm/libexec/rocm-core/rdhc.py").2) := by
  decide

/-- C7 as amended: both scripts execute the existing helper script (directly
when executable, else via the interpreter) with `--all`; only
package_full_test.py retries without arguments on failure or timeout, while
the native script performs exactly the single `--all` invocation; and in
both scripts the rdhc outcome never affects the verification verdict. -/
theorem rdhc_invocation_amended :
    (∀ (executable : Bool) (a : ExecOutcome) (pyExe script : String),
       native_test_rdhc false executable a pyExe script = (false, []) ∧
       ∀ n : ExecOutcome,
         pft_test_rdhc false executable a n pyExe script = (false, []))
  ∧ (∀ (executable : Bool) (a : ExecOutcome) (pyExe script : String),
       (native_test_rdhc true executable a pyExe script).2 =
         [rdhc_base_cmd executable pyExe script ++ ["--all"]])
  ∧ (∀ (executable : Bool) (n : ExecOutcome) (pyExe script : String),
       pft_test_rdhc true executable ExecOutcome.failed n pyExe script =
         (pft_try_rdhc_without_args n,
          [rdhc_base_cmd executable pyExe script ++ ["--all"],
           rdhc_base_cmd executable pyExe script]) ∧
       pft_test_rdhc true executable ExecOutcome.timedOut n pyExe script =
         (pft_try_rdhc_without_args n,
          [rdhc_base_cmd executable pyExe script ++ ["--all"],
           rdhc_base_cmd executable pyExe script]))
  ∧ (∀ pyExe script : String,
       rdhc_base_cmd true pyExe script = [script] ∧
       rdhc_base_cmd false pyExe script = [pyExe, script])
  ∧ (∀ (w : VerifyWorld) (p : String) (comps : List String)
       (e₁ e₂ : Bool) (a₁ a₂ n₁ n₂ : ExecOutcome),
       (verify_rocm_installation
         { w with rdhcExecutable := e₁, rdhcAllOutcome := a₁,
                  rdhcNoArgOutcome := n₁ } p comps).1 =
       (verify_rocm_installation
         { w with rdhcExecutable := e₂, rdhcAllOutcome := a₂,
                  rdhcNoArgOutcome := n₂ } p comps).1) := by
  refine ⟨?_, ?_, ?_, ?_, ?_⟩
  · intro executable a pyExe script
    exact ⟨by simp [native_test_rdhc], fun n => by simp [pft_test_rdhc]⟩
  · intro executable a pyExe script
    cases a <;> simp [native_test_rdhc]
  · intro executable n pyExe script
    exact ⟨by simp [pft_test_rdhc], by simp [pft_test_rdhc]⟩
  · intro pyExe script
    exact ⟨rfl, rfl⟩
  · intro w p comps e₁ e₂ a₁ a₂ n₁ n₂
    cases w
    rfl

/-- C7 witness: concrete invocation traces obtained from
`rdhc_invocation_amended`. -/
theorem rdhc_invocation_amended_witness :
    pft_test_rdhc true true ExecOutcome.failed ExecOutcome.success "python3"
      "rdhc.py" = (true, [["rdhc.py", "--all"], ["rdhc.py"]]) ∧
    (native_test_rdhc true true ExecOutcome.failed "python3" "rdhc.py").2 =
      [["rdhc.py", "--all"]] := by
  have h₁ := (rdhc_invocation_amended.2.2.1 true ExecOutcome.success "python3"
    "rdhc.py").1
  have h₂ := rdhc_invocation_amended.2.1 true ExecOutcome.failed "python3"
    "rdhc.py"
  exact ⟨by simpa using h₁, by simpa using h₂⟩

/-! ### DEB repository source line

`NativeLinuxPackagesTester.setup_deb_repository`
(native_linux_packages_test_gpg.py, lines 269-288) and
`PackageFullTester.setup_deb_repository` (package_full_test.py, lines
101-114).  The native script writes a `signed-by` entry when a GPG key URL
is set (Python truthiness) and a `trusted=yes` entry otherwise;
package_full_test.py always writes the `trusted=yes` entry. -/

/-- `APT_KEYRING_FILE` default (native_linux_packages_test_gpg.py, line 80). -/
def APT_KEYRING_FILE : String := "/etc/apt/keyrings/rocm.gpg"

/-- Python truthiness of the `gpg_key_url` field (`None` and `""` falsy). -/
def gpg_truthy : Option String → Bool
  | none => false
  | some s => s != ""

/-- The single APT source line that `setup_deb_repository` writes. -/
def deb_repo_entry (gpgKeyUrl : Option String) (repoUrl : String) : String :=
  if gpg_truthy gpgKeyUrl then
    "deb [arch=amd64 signed-by=" ++ APT_KEYRING_FILE ++ "] " ++ repoUrl ++
      " stable main\n"
  else
    "deb [arch=amd64 trusted=yes] " ++ repoUrl ++ " stable main\n"

/-- The APT source line of package_full_test.py (always `trusted=yes`). -/
def pft_deb_repo_entry (repoUrl : String) : String :=
  "deb [arch=amd64 trusted=yes] " ++ repoUrl ++ " stable main\n"

/-- C4 counterexample: with no GPG key and the repository URL
`https://example.com/signed-by`, the written line does contain `signed-by`
(the URL is spliced in verbatim), so the claim's non-containment fails. -/
theorem deb_source_line_counterexample :
    ¬ (strContains (deb_repo_entry none "https://example.com/signed-by")
         "trusted=yes" = true ∧
       strContains (deb_repo_entry none "https://example.com/signed-by")
         "signed-by" = false) := by
  decide

/-- C4 as amended: the line is the fixed template with the repository URL
spliced in verbatim; with no (or empty) GPG key URL the line always contains
`trusted=yes` and its fixed template contains no `signed-by`; with a
non-empty GPG key URL the line always contains `signed-by` and its fixed
template contains no `trusted=yes` (the whole-line non-containment can fail
only through the user-supplied URL, as the counterexample shows);
package_full_test.py writes exactly the no-key line. -/
theorem deb_source_line_amended (repoUrl : String) (gpgKeyUrl : Option String) :
    (gpg_truthy gpgKeyUrl = false →
       deb_repo_entry gpgKeyUrl repoUrl =
         "deb [arch=amd64 trusted=yes] " ++ repoUrl ++ " stable main\n" ∧
       strContains (deb_repo_entry gpgKeyUrl repoUrl) "trusted=yes" = true ∧
       strContains ("deb [arch=amd64 trusted=yes] " ++ " stable main\n")
         "signed-by" = false)
  ∧ (gpg_truthy gpgKeyUrl = true →
       deb_repo_entry gpgKeyUrl repoUrl =
         "deb [arch=amd64 signed-by=" ++ APT_KEYRING_FILE ++ "] " ++ repoUrl ++
           " stable main\n" ∧
       strContains (deb_repo_entry gpgKeyUrl repoUrl) "signed-by" = true ∧
       strContains ("deb [arch=amd64 signed-by=" ++ APT_KEYRING_FILE ++ "] " ++
           " stable main\n") "trusted=yes" = false)
  ∧ pft_deb_repo_entry repoUrl = deb_repo_entry none repoUrl := by
  refine ⟨?_, ?_, rfl⟩
  · intro h
    have heq : deb_repo_entry gpgKeyUrl repoUrl =
        "deb [arch=amd64 trusted=yes] " ++ repoUrl ++ " stable main\n" := by
      simp [deb_repo_entry, h]
    refine ⟨heq, ?_, by decide⟩
    rw [heq]
    exact strContains_append_left _ (strContains_append_left _ (by decide))
  · intro h
    have heq : deb_repo_entry gpgKeyUrl repoUrl =
        "deb [arch=amd64 signed-by=" ++ APT_KEYRING_FILE ++ "] " ++ repoUrl ++
          " stable main\n" := by
      simp [deb_repo_entry, h]
    refine ⟨heq, ?_, by decide⟩
    rw [heq]
    exact strContains_append_left _ (strContains_append_left _
      (strContains_append_left _ (by decide)))

/-- C4 witness: concrete lines of both flavours, obtained from
`deb_source_line_amended`. -/
theorem deb_source_line_amended_witness :
    strContains (deb_repo_entry none "https://repo.example") "trusted=yes" = true ∧
    strContains (deb_repo_entry (some "https://k.example/rocm.gpg")
      "https://repo.example") "signed-by" = true :=
  ⟨((deb_source_line_amended "https://repo.example" none).1 (by decide)).2.1,
   ((deb_source_line_amended "https://repo.example"
      (some "https://k.example/rocm.gpg")).2.1 (by decide)).2.1⟩

/-! ### RPM (dnf) repository setup

`NativeLinuxPackagesTester._setup_dnf_repository`
(native_linux_packages_test_gpg.py, lines 440-500) and
`PackageFullTester.setup_rpm_repository` (package_full_test.py, lines
154-208).  Both write a `.repo` file and then run `dnf clean all`; the
native script treats a failed or timed-out clean as a warning and returns
`True`, while package_full_test.py returns `False` in both cases. -/

/-- `_setup_dnf_repository` of the native script: fails only when writing
the `.repo` file fails; the `dnf clean` outcome is logged only. -/
def native_setup_dnf_repository (repoFileWriteOk : Bool)
    (cleanOutcome : ProcOutcome) : Bool :=
  if repoFileWriteOk = false then
    false
  else
    match cleanOutcome with
    | ProcOutcome.exited _ => true
    | ProcOutcome.timedOut => true

/-- `setup_rpm_repository` of package_full_test.py: a non-zero `dnf clean`
exit (`CalledProcessError` under `check=True`) or a timeout returns `False`. -/
def pft_setup_rpm_repository (repoFileWriteOk : Bool)
    (cleanOutcome : ProcOutcome) : Bool :=
  if repoFileWriteOk = false then
    false
  else
    match cleanOutcome with
    | ProcOutcome.exited 0 => true
    | ProcOutcome.exited _ => false
    | ProcOutcome.timedOut => false

/-- C6 counterexample: in package_full_test.py, with the `.repo` file
written successfully, a `dnf clean` exit code 1 makes the setup step fail,
contradicting the claim that cache-clean failures are only warnings. -/
theorem dnf_clean_failure_counterexample :
    ¬ (pft_setup_rpm_repository true (ProcOutcome.exited 1) = true) := by
  decide

/-- C6 as amended: in the native script's `_setup_dnf_repository` the setup
result equals the `.repo`-write result — `dnf clean` failures and timeouts
are warnings only — while in package_full_test.py the setup succeeds iff the
`.repo` write succeeds and `dnf clean` exits 0. -/
theorem dnf_clean_failure_amended (writeOk : Bool) (clean : ProcOutcome) :
    native_setup_dnf_repository writeOk clean = writeOk ∧
    (pft_setup_rpm_repository writeOk clean = true ↔
      (writeOk = true ∧ clean = ProcOutcome.exited 0)) := by
  constructor
  · cases writeOk <;> cases clean <;> simp [native_setup_dnf_repository]
  · cases writeOk <;> cases clean <;>
      simp [pft_setup_rpm_repository] <;>
      split <;> simp_all

/-- C6 witness: a timed-out clean is harmless in the native script and fatal
in package_full_test.py, obtained from `dnf_clean_failure_amended`. -/
theorem dnf_clean_failure_amended_witness :
    native_setup_dnf_repository true ProcOutcome.timedOut = true ∧
    ¬ (pft_setup_rpm_repository true ProcOutcome.timedOut = true) :=
  ⟨(dnf_clean_failure_amended true ProcOutcome.timedOut).1,
   fun hb => by
    have h := (dnf_clean_failure_amended true ProcOutcome.timedOut).2.mp hb
    exact absurd h.2 (by decide)⟩

/-! ### Nightly repository URL construction

`PackageFullTester.__init__` (package_full_test.py, lines 26-72) stores
`repo_base_url.rstrip("/")` and `package_type.lower()` and builds
`repo_url = f"(base)/(package_type)/(date)-(artifact_id)/"`;
`construct_repo_url_with_os` (lines 74-85) returns `repo_url` for DEB and
`repo_url + "x86_64/"` for RPM — with no OS-profile segment, although the
method's docstring and the script's usage examples show
`.../(date)-(run id)/(os_profile)/x86_64/` for RPM. -/

/-- `self.repo_url` as computed in `PackageFullTester.__init__`. -/
def pft_repo_url (repoBaseUrl packageType date artifactId : String) : String :=
  rstrip_slashes repoBaseUrl ++ "/" ++ pyLower packageType ++ "/" ++ date ++
    "-" ++ artifactId ++ "/"

/-- `construct_repo_url_with_os`: the `os_profile` field is in scope on
`self` (hence a parameter here) but unused. -/
def construct_repo_url_with_os (repoBaseUrl packageType date artifactId
    osProfile : String) : String :=
  if pyLower packageType == "deb" then
    pft_repo_url repoBaseUrl packageType date artifactId
  else
    pft_repo_url repoBaseUrl packageType date artifactId ++ "x86_64/"

/-- Modelled from the spec: the RPM URL shape documented in the docstring of
`construct_repo_url_with_os` and in the script's usage examples —
`base_url/rpm/YYYYMMDD-RUNID/os_profile/x86_64/` — which the code does not
produce. -/
def documented_rpm_repo_url (repoBaseUrl date artifactId osProfile : String) :
    String :=
  rstrip_slashes repoBaseUrl ++ "/rpm/" ++ date ++ "-" ++ artifactId ++ "/" ++
    osProfile ++ "/x86_64/"

/-- C9: for every base URL, with package type `deb`, date `20260204` and
artifact id `21658678136`, the constructed nightly DEB repository URL is the
base stripped of trailing slashes followed by `/deb/20260204-21658678136/`. -/
theorem nightly_deb_repo_url_shape (base osProfile : String) :
    construct_repo_url_with_os base "deb" "20260204" "21658678136" osProfile =
      rstrip_slashes base ++ "/deb/20260204-21658678136/" := by
  show pft_repo_url base "deb" "20260204" "21658678136" =
    rstrip_slashes base ++ "/deb/20260204-21658678136/"
  apply String.ext
  simp only [pft_repo_url, String.data_append, List.append_assoc]
  exact congrArg (fun x => (rstrip_slashes base).data ++ x) (by decide)

/-- C10: for package type `rpm` the constructed URL is the nightly base plus
`/rpm/(date)-(artifact id)/x86_64/`, independent of the OS profile, and it
differs from the URL shape shown in the method's own docstring and usage
examples (which place the OS profile before `x86_64`). -/
theorem rpm_repo_url_no_os_segment (base date artifactId osProfile osProfile₂ :
    String) :
    construct_repo_url_with_os base "rpm" date artifactId osProfile =
      rstrip_slashes base ++ "/rpm/" ++ date ++ "-" ++ artifactId ++ "/x86_64/"
  ∧ construct_repo_url_with_os base "rpm" date artifactId osProfile =
      construct_repo_url_with_os base "rpm" date artifactId osProfile₂
  ∧ construct_repo_url_with_os "https://rocm.nightlies.amd.com" "rpm"
      "20260204" "21658678136" "rhel8" ≠
    documented_rpm_repo_url "https://rocm.nightlies.amd.com" "20260204"
      "21658678136" "rhel8" := by
  refine ⟨?_, rfl, by decide⟩
  show pft_repo_url base "rpm" date artifactId ++ "x86_64/" =
    rstrip_slashes base ++ "/rpm/" ++ date ++ "-" ++ artifactId ++ "/x86_64/"
  apply String.ext
  simp only [pft_repo_url, String.data_append, List.append_assoc]
  simp [show ("/" : String).data = ['/'] from rfl,
        show (pyLower "rpm").data = ['r', 'p', 'm'] from rfl,
        show ("-" : String).data = ['-'] from rfl,
        show ("x86_64/" : String).data = ['x', '8', '6', '_', '6', '4', '/'] from rfl,
        show ("/rpm/" : String).data = ['/', 'r', 'p', 'm', '/'] from rfl,
        show ("/x86_64/" : String).data =
          ['/', 'x', '8', '6', '_', '6', '4', '/'] from rfl]

end RocmPkgTest
